import Mathlib

/-!
Shallow embedding of `canonical-cxx`: two annotated iterator skeletons
(`src/forward-iterator.h`, `src/bidirectional-iterator.h`) and a
reversible-container CRTP mixin (`src/reversible-container.h`).

The containers `ForwardVector<T>` / `BidirectionalVector<T>` hold a fixed
array of 10 elements (`T data[10]`), embedded as `Fin 10 → T`.  An iterator's
sole state is a pointer into that array; we embed the pointer `data + i` as
the offset `i : Nat`, and a default-constructed (value-initialized, null)
iterator as `none`, so an iterator's state is `Option Nat`.

Several member-function bodies in the source are stub comments
("perform your custom ... operation"); each definition embedding such a stub
carries a doc comment starting `Modelled from the spec:` and follows the
spec's iterator laws.  All other definitions are translated directly from the
source bodies.

The const/non-const duality (`ForwardVectorIterator<T>` versus
`ForwardVectorIterator<const T>`) is embedded by indexing the iterator type
with a `Bool` flag `c` (`false` = plain `iterator`, `true` = `const_iterator`);
the element type does not occur in the iterator's state, so it is not a
parameter of the iterator type (dereference receives the array separately).
-/

namespace CanonicalCxx

/-- `ForwardVectorIterator<QualifiedType>` from `src/forward-iterator.h`.
`c = false` embeds `ForwardVectorIterator<T>` (the mutable `iterator`),
`c = true` embeds `ForwardVectorIterator<const T>` (the `const_iterator`).
The state is the stored pointer: `some i` stands for `data + i`,
`none` for the value-initialized pointer of a default-constructed iterator. -/
structure ForwardVectorIterator (c : Bool) where
  pos : Option Nat
deriving DecidableEq, Repr

namespace ForwardVectorIterator

/-- Modelled from the spec: the body of the default constructor
`ForwardVectorIterator() {}` is a stub; per the guidance in the source
("Don't leave any data members of primitive types uninitialized!") and the
spec's law that a default-constructed cursor compares equal to another
default-constructed cursor, it value-initializes the pointer (`none`). -/
def default (c : Bool) : ForwardVectorIterator c := ⟨none⟩

/-- Modelled from the spec: the body of the private constructor
`explicit ForwardVectorIterator(QualifiedType* ptr)` is a stub
("perform your custom initialization"); the cursor's sole state is the
current position, so the constructor stores the pointer `data + i` as `i`. -/
def fromPtr (c : Bool) (i : Nat) : ForwardVectorIterator c := ⟨some i⟩

/-- Modelled from the spec: the body of prefix `operator++` is a stub
("perform your custom pre-increment operation"); advancing the cursor moves
the pointer one element forward.  On a null iterator the behavior is
undefined in C++; the embedding totalizes it as a no-op. -/
def preInc : ForwardVectorIterator c → ForwardVectorIterator c
  | ⟨some i⟩ => ⟨some (i + 1)⟩
  | ⟨none⟩ => ⟨none⟩

/-- Postfix `operator++(int)` from the source (its body is concrete):
`ForwardVectorIterator tmp = *this; ++(*this); return tmp;`.
The embedding returns the pair (returned value, updated `*this`). -/
def postInc (it : ForwardVectorIterator c) :
    ForwardVectorIterator c × ForwardVectorIterator c :=
  let tmp := it
  (tmp, it.preInc)

/-- Modelled from the spec: the body of the member template
`bool operator==(ForwardVectorIterator<QT> const&) const` is a stub
("perform your custom iterator-comparison operation"); per the spec's law
"equality of two cursors at the same position", it compares the stored
positions.  Being a template, it compares across const-qualifications. -/
def eq (a : ForwardVectorIterator c1) (b : ForwardVectorIterator c2) : Bool :=
  a.pos == b.pos

/-- `operator!=` from the source (its body is concrete):
`return !(*this == other);`. -/
def ne (a : ForwardVectorIterator c1) (b : ForwardVectorIterator c2) : Bool :=
  !(eq a b)

/-- Modelled from the spec: the body of `reference operator*() const` is a
stub ("perform your custom dereference operation"); it returns a reference
to the element at the cursor's current position.  Dereferencing the
end-position or a null cursor is undefined in C++; the embedding returns
`none` there and `some` of the element otherwise. -/
def deref (data : Fin 10 → T) : ForwardVectorIterator c → Option T
  | ⟨some i⟩ => if h : i < 10 then some (data ⟨i, h⟩) else none
  | ⟨none⟩ => none

/-- Modelled from the spec: the body of the conversion operator
`operator ForwardVectorIterator<const UnqualifiedType>() const` is a stub
("perform your custom conversion"); the converted `const_iterator` denotes
the same position. -/
def toConst (it : ForwardVectorIterator c) : ForwardVectorIterator true :=
  ⟨it.pos⟩

/-- Iterated prefix `operator++`: `advance k it` applies `++` `k` times. -/
def advance : Nat → ForwardVectorIterator c → ForwardVectorIterator c
  | 0, it => it
  | k + 1, it => advance k it.preInc

end ForwardVectorIterator

/-- `ForwardVector<T>` from `src/forward-iterator.h`: `T data[10]`. -/
structure ForwardVector (T : Type) where
  data : Fin 10 → T

namespace ForwardVector

/-- `iterator begin() { return iterator(data); }` -/
def begin (_v : ForwardVector T) : ForwardVectorIterator false :=
  ForwardVectorIterator.fromPtr false 0

/-- `const_iterator cbegin() const { return const_iterator(data); }` -/
def cbegin (_v : ForwardVector T) : ForwardVectorIterator true :=
  ForwardVectorIterator.fromPtr true 0

/-- `const_iterator begin() const { return cbegin(); }` -/
def beginC (v : ForwardVector T) : ForwardVectorIterator true :=
  v.cbegin

/-- `iterator end() { return iterator(data+10); }` -/
def «end» (_v : ForwardVector T) : ForwardVectorIterator false :=
  ForwardVectorIterator.fromPtr false 10

/-- `const_iterator end() const { return cbegin(); }` — translated exactly as
written in the source (`src/forward-iterator.h:34`), which returns
`cbegin()`, not `cend()`. -/
def endC (v : ForwardVector T) : ForwardVectorIterator true :=
  v.cbegin

/-- `const_iterator cend() const { return const_iterator(data+10); }` -/
def cend (_v : ForwardVector T) : ForwardVectorIterator true :=
  ForwardVectorIterator.fromPtr true 10

end ForwardVector

/-- `BidirectionalVectorIterator<QualifiedType>` from
`src/bidirectional-iterator.h`; the embedding of its state is the same as
for `ForwardVectorIterator` (`some i` for `data + i`, `none` for a
default-constructed iterator), and `c` again distinguishes `iterator`
(`false`) from `const_iterator` (`true`). -/
structure BidirectionalVectorIterator (c : Bool) where
  pos : Option Nat
deriving DecidableEq, Repr

namespace BidirectionalVectorIterator

/-- Modelled from the spec: the body of the default constructor
`BidirectionalVectorIterator() {}` is a stub; per the guidance in the source
and the spec's law on default-constructed cursors, it value-initializes the
pointer (`none`). -/
def default (c : Bool) : BidirectionalVectorIterator c := ⟨none⟩

/-- Modelled from the spec: the body of the private constructor
`explicit BidirectionalVectorIterator(QualifiedType* ptr)` is a stub; it
stores the pointer `data + i` as the position `i`. -/
def fromPtr (c : Bool) (i : Nat) : BidirectionalVectorIterator c := ⟨some i⟩

/-- Modelled from the spec: the body of prefix `operator++` is a stub
("perform your custom pre-increment operation"); advancing moves the pointer
one element forward.  Totalized as a no-op on a null iterator. -/
def preInc : BidirectionalVectorIterator c → BidirectionalVectorIterator c
  | ⟨some i⟩ => ⟨some (i + 1)⟩
  | ⟨none⟩ => ⟨none⟩

/-- Modelled from the spec: the body of prefix `operator--` is a stub
("perform your custom pre-decrement operation"); retreating moves the
pointer one element backward.  Decrementing at position 0 or on a null
iterator is undefined in C++; the embedding totalizes both (truncated
subtraction, no-op on null). -/
def preDec : BidirectionalVectorIterator c → BidirectionalVectorIterator c
  | ⟨some i⟩ => ⟨some (i - 1)⟩
  | ⟨none⟩ => ⟨none⟩

/-- Postfix `operator++(int)` from the source (its body is concrete):
`BidirectionalVectorIterator tmp = *this; ++(*this); return tmp;`.
The embedding returns the pair (returned value, updated `*this`). -/
def postInc (it : BidirectionalVectorIterator c) :
    BidirectionalVectorIterator c × BidirectionalVectorIterator c :=
  let tmp := it
  (tmp, it.preInc)

/-- Postfix `operator--(int)` from the source (its body is concrete):
`BidirectionalVectorIterator tmp = *this; --(*this); return tmp;`. -/
def postDec (it : BidirectionalVectorIterator c) :
    BidirectionalVectorIterator c × BidirectionalVectorIterator c :=
  let tmp := it
  (tmp, it.preDec)

/-- Modelled from the spec: the body of the member template
`bool operator==(BidirectionalVectorIterator<QT> const&) const` is a stub;
per the spec's law it compares the stored positions, across
const-qualifications. -/
def eq (a : BidirectionalVectorIterator c1) (b : BidirectionalVectorIterator c2) :
    Bool :=
  a.pos == b.pos

/-- `operator!=` from the source (its body is concrete):
`return !(*this == other);`. -/
def ne (a : BidirectionalVectorIterator c1) (b : BidirectionalVectorIterator c2) :
    Bool :=
  !(eq a b)

/-- Modelled from the spec: the body of `reference operator*() const` is a
stub; it returns the element at the cursor's current position, and
dereferencing the end-position or a null cursor is undefined (embedded
as `none`). -/
def deref (data : Fin 10 → T) : BidirectionalVectorIterator c → Option T
  | ⟨some i⟩ => if h : i < 10 then some (data ⟨i, h⟩) else none
  | ⟨none⟩ => none

/-- Modelled from the spec: the body of the conversion operator
`operator BidirectionalVectorIterator<const UnqualifiedType>() const` is a
stub; the converted `const_iterator` denotes the same position. -/
def toConst (it : BidirectionalVectorIterator c) :
    BidirectionalVectorIterator true :=
  ⟨it.pos⟩

/-- Iterated prefix `operator++`. -/
def advance : Nat → BidirectionalVectorIterator c → BidirectionalVectorIterator c
  | 0, it => it
  | k + 1, it => advance k it.preInc

end BidirectionalVectorIterator

/-- `BidirectionalVector<T>` from `src/bidirectional-iterator.h`:
`T data[10]`, deriving from `reversible_container<BidirectionalVector<T>>`. -/
structure BidirectionalVector (T : Type) where
  data : Fin 10 → T

namespace BidirectionalVector

/-- `iterator begin() { return iterator(data); }` -/
def begin (_v : BidirectionalVector T) : BidirectionalVectorIterator false :=
  BidirectionalVectorIterator.fromPtr false 0

/-- `const_iterator cbegin() const { return const_iterator(data); }` -/
def cbegin (_v : BidirectionalVector T) : BidirectionalVectorIterator true :=
  BidirectionalVectorIterator.fromPtr true 0

/-- `const_iterator begin() const { return cbegin(); }` -/
def beginC (v : BidirectionalVector T) : BidirectionalVectorIterator true :=
  v.cbegin

/-- `iterator end() { return iterator(data+10); }` -/
def «end» (_v : BidirectionalVector T) : BidirectionalVectorIterator false :=
  BidirectionalVectorIterator.fromPtr false 10

/-- `const_iterator end() const { return cbegin(); }` — translated exactly as
written in the source (`src/bidirectional-iterator.h:36`), which returns
`cbegin()`, not `cend()`. -/
def endC (v : BidirectionalVector T) : BidirectionalVectorIterator true :=
  v.cbegin

/-- `const_iterator cend() const { return const_iterator(data+10); }` -/
def cend (_v : BidirectionalVector T) : BidirectionalVectorIterator true :=
  BidirectionalVectorIterator.fromPtr true 10

end BidirectionalVector

/-- `std::reverse_iterator<BidirectionalVector<T>::iterator>`, the
`reverse_iterator` named by `reversible_container` in
`src/reversible-container.h`.  `std::reverse_iterator` is standard-library
code, embedded by its standard semantics: it stores its base iterator,
`operator*` returns `*(base - 1)`, and `operator++` decrements the base. -/
structure reverse_iterator where
  base : BidirectionalVectorIterator false
deriving DecidableEq, Repr

namespace reverse_iterator

/-- `std::reverse_iterator::operator*`: `Iterator tmp = current; return *--tmp;`. -/
def deref (data : Fin 10 → T) (r : reverse_iterator) : Option T :=
  r.base.preDec.deref data

/-- `std::reverse_iterator::operator++`: `--current; return *this;`. -/
def preInc (r : reverse_iterator) : reverse_iterator :=
  ⟨r.base.preDec⟩

/-- Iterated `operator++` on the reverse iterator. -/
def advance : Nat → reverse_iterator → reverse_iterator
  | 0, r => r
  | k + 1, r => advance k r.preInc

end reverse_iterator

namespace reversible_container

/-- `reverse_iterator rbegin() { return reverse_iterator(this->end()); }`
from `src/reversible-container.h`, instantiated at the one deriving class,
`BidirectionalVector<T>` (CRTP: `this->end()` is the container's `end()`). -/
def rbegin (v : CanonicalCxx.BidirectionalVector T) : reverse_iterator :=
  ⟨v.«end»⟩

/-- `reverse_iterator rend() { return reverse_iterator(this->begin()); }`
from `src/reversible-container.h`, instantiated at `BidirectionalVector<T>`. -/
def rend (v : CanonicalCxx.BidirectionalVector T) : reverse_iterator :=
  ⟨v.begin⟩

end reversible_container

/-- The sequence of element accesses made by a forward traversal of a
`BidirectionalVector`: dereference `begin()` advanced `k` times, for
`k = 0, …, 9`. -/
def fwdVisited (v : BidirectionalVector T) : List (Option T) :=
  (List.range 10).map fun k =>
    (BidirectionalVectorIterator.advance k v.begin).deref v.data

/-- The sequence of element accesses made by the reverse range from
`rbegin()` to `rend()`: dereference `rbegin()` advanced `k` times, for
`k = 0, …, 9`. -/
def revVisited (v : BidirectionalVector T) : List (Option T) :=
  (List.range 10).map fun k =>
    (reverse_iterator.advance k (reversible_container.rbegin v)).deref v.data

/-! ### Helper lemmas -/

theorem ForwardVectorIterator.fwd_advance_mk (c : Bool) (k i : Nat) :
    ForwardVectorIterator.advance k (⟨some i⟩ : ForwardVectorIterator c) =
      ⟨some (i + k)⟩ := by
  induction k generalizing i with
  | zero => rfl
  | succ k ih =>
      show ForwardVectorIterator.advance k
        (ForwardVectorIterator.preInc ⟨some i⟩) = _
      rw [show ForwardVectorIterator.preInc (⟨some i⟩ : ForwardVectorIterator c) =
        ⟨some (i + 1)⟩ from rfl, ih]
      exact congrArg (fun j => ForwardVectorIterator.mk (some j)) (by omega)

theorem BidirectionalVectorIterator.bidi_advance_mk (c : Bool) (k i : Nat) :
    BidirectionalVectorIterator.advance k
        (⟨some i⟩ : BidirectionalVectorIterator c) = ⟨some (i + k)⟩ := by
  induction k generalizing i with
  | zero => rfl
  | succ k ih =>
      show BidirectionalVectorIterator.advance k
        (BidirectionalVectorIterator.preInc ⟨some i⟩) = _
      rw [show BidirectionalVectorIterator.preInc
        (⟨some i⟩ : BidirectionalVectorIterator c) = ⟨some (i + 1)⟩ from rfl, ih]
      exact congrArg (fun j => BidirectionalVectorIterator.mk (some j)) (by omega)

/-! ### Claims -/

/-- C1: the claim asserts that for const containers the const overload of
`end()` returns the same position as `cend()` and that ten increments of
`begin()` reach that end-position.  The code violates it: in both headers the
const overload of `end()` returns `cbegin()` (position 0), a copy-paste slip,
while `cend()` is position 10, which is what ten increments of the const
`begin()` actually reach.  This theorem evaluates the code at the failing
input: an arbitrary const `ForwardVector<T>` and `BidirectionalVector<T>`. -/
theorem c1_const_end_returns_cbegin :
    ∀ (T : Type) (v : ForwardVector T) (w : BidirectionalVector T),
      v.endC = v.cbegin ∧
      ForwardVectorIterator.eq v.endC v.cend = false ∧
      ForwardVectorIterator.eq
        (ForwardVectorIterator.advance 10 v.beginC) v.cend = true ∧
      ForwardVectorIterator.eq
        (ForwardVectorIterator.advance 10 v.beginC) v.endC = false ∧
      w.endC = w.cbegin ∧
      BidirectionalVectorIterator.eq w.endC w.cend = false ∧
      BidirectionalVectorIterator.eq
        (BidirectionalVectorIterator.advance 10 w.beginC) w.cend = true ∧
      BidirectionalVectorIterator.eq
        (BidirectionalVectorIterator.advance 10 w.beginC) w.endC = false :=
  fun _ _ _ => ⟨rfl, rfl, rfl, rfl, rfl, rfl, rfl, rfl⟩

/-- C2: for every non-const `ForwardVector<T>` and `BidirectionalVector<T>`,
applying `operator++` to `begin()` exactly 10 times yields an iterator equal
to `end()`, and no smaller number of increments does. -/
theorem c2_begin_plus_ten_is_end :
    ∀ (T : Type) (v : ForwardVector T) (w : BidirectionalVector T),
      (ForwardVectorIterator.eq
          (ForwardVectorIterator.advance 10 v.begin) v.«end» = true ∧
        ∀ k, k < 10 →
          ForwardVectorIterator.eq
            (ForwardVectorIterator.advance k v.begin) v.«end» = false) ∧
      (BidirectionalVectorIterator.eq
          (BidirectionalVectorIterator.advance 10 w.begin) w.«end» = true ∧
        ∀ k, k < 10 →
          BidirectionalVectorIterator.eq
            (BidirectionalVectorIterator.advance k w.begin) w.«end» = false) := by
  intro T v w
  refine ⟨⟨rfl, ?_⟩, ⟨rfl, ?_⟩⟩ <;> intro k hk <;>
    simp [ForwardVector.begin, ForwardVector.«end», BidirectionalVector.begin,
      BidirectionalVector.«end», ForwardVectorIterator.eq,
      BidirectionalVectorIterator.eq, ForwardVectorIterator.fwd_advance_mk,
      BidirectionalVectorIterator.bidi_advance_mk, ForwardVectorIterator.fromPtr,
      BidirectionalVectorIterator.fromPtr] <;> omega

/-- Witness for C2 at a concrete container and increment count. -/
theorem c2_begin_plus_ten_is_end_witness :
    (3 < 10) ∧
      ForwardVectorIterator.eq
        (ForwardVectorIterator.advance 3
          (ForwardVector.begin (⟨fun _ => 0⟩ : ForwardVector Nat)))
        (ForwardVector.«end» (⟨fun _ => 0⟩ : ForwardVector Nat)) = false :=
  ⟨by decide,
    (c2_begin_plus_ten_is_end Nat ⟨fun _ => 0⟩ ⟨fun _ => 0⟩).1.2 3 (by decide)⟩

/-- C3: two default-constructed iterators compare equal, for both iterator
skeletons and both const-qualifications. -/
theorem c3_default_constructed_equal :
    ∀ c1 c2 : Bool,
      ForwardVectorIterator.eq
        (ForwardVectorIterator.default c1) (ForwardVectorIterator.default c2) = true ∧
      BidirectionalVectorIterator.eq
        (BidirectionalVectorIterator.default c1)
        (BidirectionalVectorIterator.default c2) = true :=
  fun _ _ => ⟨rfl, rfl⟩

/-- C4: `operator==` returns true exactly when the two cursors denote the
same position, for any const-qualifications of the two operands. -/
theorem c4_eq_iff_same_position :
    ∀ (c1 c2 : Bool) (a : ForwardVectorIterator c1) (b : ForwardVectorIterator c2)
      (a2 : BidirectionalVectorIterator c1) (b2 : BidirectionalVectorIterator c2),
      (ForwardVectorIterator.eq a b = true ↔ a.pos = b.pos) ∧
      (BidirectionalVectorIterator.eq a2 b2 = true ↔ a2.pos = b2.pos) := by
  intro c1 c2 a b a2 b2
  constructor <;>
    simp [ForwardVectorIterator.eq, BidirectionalVectorIterator.eq]

/-- C5: `v.begin() == v.cbegin()` holds for both containers, and the
implicit conversion of a plain iterator to a `const_iterator` denotes the
same position (so the converted iterator compares equal to the original). -/
theorem c5_const_nonconst_interop :
    ∀ (T : Type) (v : ForwardVector T) (w : BidirectionalVector T) (c : Bool)
      (it : ForwardVectorIterator c) (it2 : BidirectionalVectorIterator c),
      ForwardVectorIterator.eq v.begin v.cbegin = true ∧
      BidirectionalVectorIterator.eq w.begin w.cbegin = true ∧
      it.toConst.pos = it.pos ∧
      ForwardVectorIterator.eq it.toConst it = true ∧
      it2.toConst.pos = it2.pos ∧
      BidirectionalVectorIterator.eq it2.toConst it2 = true := by
  intro T v w c it it2
  refine ⟨rfl, rfl, rfl, ?_, rfl, ?_⟩ <;>
    simp [ForwardVectorIterator.eq, BidirectionalVectorIterator.eq,
      ForwardVectorIterator.toConst, BidirectionalVectorIterator.toConst]

/-- C6: for every iterator obtained from a container (that is, `begin()`
advanced at most 10 times), if the iterator is not equal to the
end-position, then dereferencing it succeeds and yields the element at the
cursor's current position (never the error/undefined branch `none`). -/
theorem c6_deref_defined_before_end :
    ∀ (T : Type) (v : ForwardVector T) (w : BidirectionalVector T) (k : Nat),
      k ≤ 10 →
      (ForwardVectorIterator.eq
          (ForwardVectorIterator.advance k v.begin) v.«end» = false →
        ∃ hlt : k < 10,
          (ForwardVectorIterator.advance k v.begin).deref v.data =
            some (v.data ⟨k, hlt⟩)) ∧
      (BidirectionalVectorIterator.eq
          (BidirectionalVectorIterator.advance k w.begin) w.«end» = false →
        ∃ hlt : k < 10,
          (BidirectionalVectorIterator.advance k w.begin).deref w.data =
            some (w.data ⟨k, hlt⟩)) := by
  intro T v w k hk
  have hfa : ForwardVectorIterator.advance k v.begin = ⟨some (0 + k)⟩ :=
    ForwardVectorIterator.fwd_advance_mk false k 0
  have hba : BidirectionalVectorIterator.advance k w.begin = ⟨some (0 + k)⟩ :=
    BidirectionalVectorIterator.bidi_advance_mk false k 0
  constructor <;> intro hne
  · have hlt : k < 10 := by
      by_contra hge
      have hk10 : k = 10 := by omega
      subst hk10
      rw [hfa] at hne
      simp [ForwardVectorIterator.eq, ForwardVector.«end»,
        ForwardVectorIterator.fromPtr] at hne
    refine ⟨hlt, ?_⟩
    rw [hfa]
    simp [ForwardVectorIterator.deref, hlt]
  · have hlt : k < 10 := by
      by_contra hge
      have hk10 : k = 10 := by omega
      subst hk10
      rw [hba] at hne
      simp [BidirectionalVectorIterator.eq, BidirectionalVector.«end»,
        BidirectionalVectorIterator.fromPtr] at hne
    refine ⟨hlt, ?_⟩
    rw [hba]
    simp [BidirectionalVectorIterator.deref, hlt]

/-- Witness for C6 at a concrete container and position. -/
theorem c6_deref_defined_before_end_witness :
    (3 ≤ 10) ∧
      ∃ hlt : 3 < 10,
        (ForwardVectorIterator.advance 3
            (ForwardVector.begin (⟨fun _ => 7⟩ : ForwardVector Nat))).deref
          (fun _ => 7) = some ((fun _ : Fin 10 => 7) ⟨3, hlt⟩) :=
  ⟨by decide,
    (c6_deref_defined_before_end Nat ⟨fun _ => 7⟩ ⟨fun _ => 7⟩ 3
        (by decide)).1 (by decide)⟩

/-- C7: on the bidirectional iterator, advance and retreat are mutually
inverse: strictly before the end-position, `--(++it)` restores the position;
strictly after the begin-position, `++(--it)` restores it. -/
theorem c7_inc_dec_mutually_inverse :
    ∀ (c : Bool) (it : BidirectionalVectorIterator c) (i : Nat),
      it.pos = some i →
      (i < 10 → it.preInc.preDec = it) ∧ (0 < i → it.preDec.preInc = it) := by
  intro c it i h
  obtain ⟨p⟩ := it
  cases p with
  | none => simp at h
  | some j =>
      have hj : j = i := by simpa using h
      subst hj
      constructor <;> intro hi
      · simp [BidirectionalVectorIterator.preInc,
          BidirectionalVectorIterator.preDec]
      · simp [BidirectionalVectorIterator.preDec,
          BidirectionalVectorIterator.preInc]
        omega

/-- Witness for C7 at a concrete iterator position. -/
theorem c7_inc_dec_mutually_inverse_witness :
    (BidirectionalVectorIterator.mk (c := false) (some 5)).pos = some 5 ∧
      (5 < 10 →
        (BidirectionalVectorIterator.mk (c := false) (some 5)).preInc.preDec =
          BidirectionalVectorIterator.mk (some 5)) ∧
      (0 < 5 →
        (BidirectionalVectorIterator.mk (c := false) (some 5)).preDec.preInc =
          BidirectionalVectorIterator.mk (some 5)) :=
  ⟨rfl, c7_inc_dec_mutually_inverse false ⟨some 5⟩ 5 rfl⟩

/-- C8: the postfix operators return a copy of the iterator's value before
the operation, and the updated iterator equals the corresponding prefix
operator applied to that prior value. -/
theorem c8_postfix_copy_then_prefix :
    ∀ (c : Bool) (it : ForwardVectorIterator c)
      (it2 : BidirectionalVectorIterator c),
      it.postInc.1 = it ∧ it.postInc.2 = it.preInc ∧
      it2.postInc.1 = it2 ∧ it2.postInc.2 = it2.preInc ∧
      it2.postDec.1 = it2 ∧ it2.postDec.2 = it2.preDec :=
  fun _ _ _ => ⟨rfl, rfl, rfl, rfl, rfl, rfl⟩

/-- C9: `operator!=` returns exactly the negation of `operator==`, for any
const-qualifications of the two operands. -/
theorem c9_ne_is_negation_of_eq :
    ∀ (c1 c2 : Bool) (a : ForwardVectorIterator c1) (b : ForwardVectorIterator c2)
      (a2 : BidirectionalVectorIterator c1) (b2 : BidirectionalVectorIterator c2),
      ForwardVectorIterator.ne a b = !(ForwardVectorIterator.eq a b) ∧
      BidirectionalVectorIterator.ne a2 b2 = !(BidirectionalVectorIterator.eq a2 b2) :=
  fun _ _ _ _ _ _ => ⟨rfl, rfl⟩

/-- C10: `rbegin()` is the reverse iterator constructed from `end()`,
`rend()` the reverse iterator constructed from `begin()`; the reverse range
visits exactly the container's elements in reverse order, and dereferencing
`rbegin()` yields the last element. -/
theorem c10_reverse_range :
    ∀ (T : Type) (v : BidirectionalVector T),
      reversible_container.rbegin v = ⟨v.«end»⟩ ∧
      reversible_container.rend v = ⟨v.begin⟩ ∧
      revVisited v = (fwdVisited v).reverse ∧
      (reversible_container.rbegin v).deref v.data =
        some (v.data ⟨9, by omega⟩) :=
  fun _ _ => ⟨rfl, rfl, rfl, rfl⟩

end CanonicalCxx
